import Mathlib

/-!
Verification of the pxg-go canvas store (src/main.go) against its
natural-language specification.

The Go program keeps two package-level pieces of mutable state: `board`,
a byte buffer of `width*height` color indices, and `placementData`, the
append-only list of accepted placements.  The HTTP handlers in `main`
validate a request, mutate this state, or look it up; `loadCanvas`,
`saveCanvas`, `loadPlacementData` and `savePlacementData` move the state
to and from disk.  Below, each of those pieces is embedded as a pure
Lean function over an explicit `State`; file-system interaction is
represented by the observable input of each load/save routine (the file
content found, or the result of the write).
-/

namespace PxG

/-- One accepted placement, as appended to `placementData`
(struct `ServerPixel` in src/main.go). -/
structure ServerPixel where
  x : Int
  y : Int
  color : Int
  time : Int
deriving DecidableEq

/-- The shared in-memory state of the program: the grid byte buffer
(`board`) and the placement log (`placementData`). -/
structure State where
  board : List Nat
  placementData : List ServerPixel
deriving DecidableEq

/-- Go's conversion `byte(i)` of a signed integer: truncation to the low
8 bits, i.e. the representative of `i` modulo 256 in `[0, 256)`. -/
def byteOfInt (i : Int) : Nat := (i % 256).toNat

/-- The three validation failures of the POST /pixel handler, in the
order the handler checks them; each corresponds to one `badRequest`
message in src/main.go ("color out of range", "x-coordinate out of
range", "y-coordinate out of range"). -/
inductive PlaceError where
  | invalidColor
  | outOfBoundsX
  | outOfBoundsY
deriving DecidableEq

/-- Whether a `PlaceError` is one of the two coordinate (out-of-bounds)
errors, as opposed to the color error. -/
def PlaceError.isOutOfBounds : PlaceError → Bool
  | .outOfBoundsX => true
  | .outOfBoundsY => true
  | .invalidColor => false

/-- The POST /pixel handler (src/main.go lines 111-139): validate the
color range (`Color < 0 || Color > 255`), then the x range, then the y
range; on failure return early with the corresponding error and the
state untouched; on success write `byte(color)` into the board at index
`y*width + x` and append the placement to the log. -/
def place (width height : Int) (s : State) (x y c t : Int) :
    State × Option PlaceError :=
  if c < 0 ∨ c > 255 then (s, some .invalidColor)
  else if x < 0 ∨ x ≥ width then (s, some .outOfBoundsX)
  else if y < 0 ∨ y ≥ height then (s, some .outOfBoundsY)
  else
    ({ board := s.board.set (y * width + x).toNat (byteOfInt c),
       placementData :=
         s.placementData ++ [{ x := x, y := y, color := c, time := t }] },
     none)

/-- The GET /pixel handler's lookup (src/main.go lines 103-109):
`slices.IndexFunc` returns the index of the FIRST element of
`placementData` matching the coordinate, and the handler serves that
element; `none` models the index `-1` (no match) case, in which the
handler sets status 404. -/
def findLatest (s : State) (x y : Int) : Option ServerPixel :=
  s.placementData.find? (fun p => p.x == x && p.y == y)

/-- Modelled from the spec: `ReadCell(x, y) → colorIndex, fails with
OutOfBounds if x∉[0,width) or y∉[0,height)` — the code has no
single-cell read (GET /board serves the whole buffer), so the per-cell
read is taken from the spec's words: out of bounds fails (`none`),
otherwise the grid byte at row-major index `y*width + x`. -/
def readCell (width height : Int) (s : State) (x y : Int) : Option Nat :=
  if x < 0 ∨ x ≥ width ∨ y < 0 ∨ y ≥ height then none
  else s.board[(y * width + x).toNat]?

/-- The GET /board handler: the full grid buffer. -/
def readAll (s : State) : List Nat := s.board

/-- What `loadCanvas` finds at its path: no file (`os.ErrNotExist`),
a stat failure of another kind, or an existing file with the given
bytes. -/
inductive FileState where
  | absent
  | statError
  | present (bytes : List Nat)
deriving DecidableEq

/-- Result of a load routine: the loaded value, or a `log.Fatal*` call
(the process exits before serving anything). -/
inductive LoadResult (α : Type) where
  | ok (a : α)
  | fatal
deriving DecidableEq

/-- `loadCanvas` (src/main.go lines 168-192): missing file → buffer of
`expectedSize` bytes all `byte(defaultColor)`; other stat error →
fatal; existing file whose size differs from `expectedSize` → fatal;
otherwise the file's bytes. -/
def loadCanvas (file : FileState) (expectedSize : Nat) (defaultColor : Int) :
    LoadResult (List Nat) :=
  match file with
  | .absent => .ok (List.replicate expectedSize (byteOfInt defaultColor))
  | .statError => .fatal
  | .present bs => if bs.length ≠ expectedSize then .fatal else .ok bs

/-- What `loadPlacementData` finds at its path: no file, a stat failure,
or an existing file together with the result of `json.Unmarshal` on its
bytes (`none` = unmarshal error). -/
inductive LogFile where
  | absent
  | statError
  | present (parsed : Option (List ServerPixel))

/-- `loadPlacementData` (src/main.go lines 201-223): missing file →
empty log; other stat error, open/read error, or unmarshal error →
fatal; otherwise the parsed placements. -/
def loadPlacementData (file : LogFile) : LoadResult (List ServerPixel) :=
  match file with
  | .absent => .ok []
  | .statError => .fatal
  | .present none => .fatal
  | .present (some ps) => .ok ps

/-- Outcome of the `os.WriteFile` call inside a save routine. -/
inductive WriteResult where
  | success
  | failure
deriving DecidableEq

/-- How a save routine leaves the process: still running, or killed by
`log.Fatalln`. -/
inductive SaveOutcome where
  | ok
  | fatal
deriving DecidableEq

/-- `saveCanvas` (src/main.go lines 194-199): `os.WriteFile` failure →
`log.Fatalln` (process exits); success → the process keeps running. -/
def saveCanvas (write : WriteResult) : SaveOutcome :=
  match write with
  | .success => .ok
  | .failure => .fatal

/-- `savePlacementData` (src/main.go lines 225-234): `json.Marshal`
error (`none`) → `log.Fatalln`; then `os.WriteFile` failure →
`log.Fatalln`; otherwise the process keeps running. -/
def savePlacementData (marshal : Option (List Nat)) (write : WriteResult) :
    SaveOutcome :=
  match marshal with
  | none => .fatal
  | some _ =>
    match write with
    | .success => .ok
    | .failure => .fatal

/-- Applying one logged placement to a grid: write `byte(color)` at
row-major index `y*width + x` (the same write `place` performs). -/
def applyPlacement (width : Int) (g : List Nat) (p : ServerPixel) : List Nat :=
  g.set (p.y * width + p.x).toNat (byteOfInt p.color)

/-- Replaying a placement log over an initial grid, in log order. -/
def replay (width : Int) (init : List Nat) (ps : List ServerPixel) : List Nat :=
  ps.foldl (applyPlacement width) init

/-- The all-default grid: `width*height` cells of `byte(d)` (what
`loadCanvas` builds when the board file is missing). -/
def bootGrid (width height d : Int) : List Nat :=
  List.replicate (width * height).toNat (byteOfInt d)

/-- The bootstrap state: all-default grid and empty log. -/
def bootState (width height d : Int) : State :=
  { board := bootGrid width height d, placementData := [] }

/-- States reachable from a starting state by successful `place` calls
(the only operation of the program that mutates the in-memory state). -/
inductive ReachableFrom (width height : Int) : State → State → Prop
  | refl (s : State) : ReachableFrom width height s s
  | step {s s1 s2 : State} (x y c t : Int) :
      ReachableFrom width height s s1 →
      place width height s1 x y c t = (s2, none) →
      ReachableFrom width height s s2

/-- Characterisation of a successful `place` call: success happens
exactly when the color is in `[0, 255]` and the coordinates are in
bounds, and then the new state is the old one with the board cell set
and the placement appended. -/
theorem place_ok_iff (width height : Int) (s : State) (x y c t : Int)
    (s2 : State) :
    place width height s x y c t = (s2, none) ↔
      0 ≤ c ∧ c ≤ 255 ∧ 0 ≤ x ∧ x < width ∧ 0 ≤ y ∧ y < height ∧
      s2 = { board := s.board.set (y * width + x).toNat (byteOfInt c),
             placementData :=
               s.placementData ++
                 [{ x := x, y := y, color := c, time := t }] } := by
  unfold place
  split_ifs with h1 h2 h3
  · simp only [Prod.mk.injEq]
    constructor
    · rintro ⟨-, h⟩
      exact absurd h (by simp)
    · rintro ⟨hc0, hc1, -⟩
      omega
  · simp only [Prod.mk.injEq]
    constructor
    · rintro ⟨-, h⟩
      exact absurd h (by simp)
    · rintro ⟨-, -, hx0, hx1, -⟩
      omega
  · simp only [Prod.mk.injEq]
    constructor
    · rintro ⟨-, h⟩
      exact absurd h (by simp)
    · rintro ⟨-, -, -, -, hy0, hy1, -⟩
      omega
  · push_neg at h1 h2 h3
    constructor
    · intro h
      exact ⟨h1.1, h1.2, h2.1, h2.2, h3.1, h3.2,
        (congrArg Prod.fst h).symm⟩
    · rintro ⟨-, -, -, -, -, -, h⟩
      rw [h]

/-- Claim C4: in every state reachable from the bootstrap state
(all-default grid, empty log) by successful `place` calls, the grid
equals the replay of the log over the all-default grid. -/
theorem c4_grid_equals_replay (width height d : Int) (s : State)
    (h : ReachableFrom width height (bootState width height d) s) :
    s.board = replay width (bootGrid width height d) s.placementData := by
  induction h with
  | refl => rfl
  | step x y c t hr hplace ih =>
    rcases (place_ok_iff _ _ _ _ _ _ _ _).1 hplace with
      ⟨-, -, -, -, -, -, hs⟩
    subst hs
    simp only [replay, List.foldl_append, List.foldl_cons, List.foldl_nil]
    rw [← replay, ← ih]
    rfl

/-- Witness for C4: one concrete reachable state (bootstrap of a 2×2
board, then one placement at (1,0)) at which the grid is the replay of
the log. -/
theorem c4_witness :
    ReachableFrom 2 2 (bootState 2 2 0)
      { board := [0, 3, 0, 0], placementData := [⟨1, 0, 3, 5⟩] } ∧
    ({ board := [0, 3, 0, 0], placementData := [⟨1, 0, 3, 5⟩] } : State).board
      = replay 2 (bootGrid 2 2 0) [⟨1, 0, 3, 5⟩] := by
  have hr : ReachableFrom 2 2 (bootState 2 2 0)
      { board := [0, 3, 0, 0], placementData := [⟨1, 0, 3, 5⟩] } :=
    ReachableFrom.step 1 0 3 5 (ReachableFrom.refl _) (by decide)
  exact ⟨hr, c4_grid_equals_replay 2 2 0 _ hr⟩

/-- The row-major index of an in-bounds coordinate is below the cell
count `width*height`. -/
theorem index_lt_of_in_bounds (width height x y : Int)
    (hx0 : 0 ≤ x) (hx1 : x < width) (hy0 : 0 ≤ y) (hy1 : y < height) :
    (y * width + x).toNat < (width * height).toNat := by
  have hw : 0 < width := lt_of_le_of_lt hx0 hx1
  have h1 : y * width + x < width * height := by
    have h2 : y * width ≤ (height - 1) * width := by
      have := mul_le_mul_of_nonneg_right (by omega : y ≤ height - 1) hw.le
      exact this
    nlinarith
  have h3 : 0 ≤ y * width := mul_nonneg hy0 hw.le
  omega

/-- Claim C9: the grid length is exactly the expected cell count: every
successful `loadCanvas` returns a buffer of length `expectedSize`;
`place`-reachability preserves the length `width*height`; and a
successful `place` writes only at index `y*width + x`, which is in
bounds. -/
theorem c9_grid_length_invariant :
    (∀ (file : FileState) (e : Nat) (d : Int) (g : List Nat),
        loadCanvas file e d = .ok g → g.length = e) ∧
    (∀ (width height : Int) (s0 s : State),
        ReachableFrom width height s0 s →
        s0.board.length = (width * height).toNat →
        s.board.length = (width * height).toNat) ∧
    (∀ (width height : Int) (s s2 : State) (x y c t : Int),
        place width height s x y c t = (s2, none) →
        s2.board = s.board.set (y * width + x).toNat (byteOfInt c) ∧
        s2.board.length = s.board.length ∧
        (y * width + x).toNat < (width * height).toNat) := by
  refine ⟨?_, ?_, ?_⟩
  · intro file e d g h
    cases file with
    | absent =>
      simp only [loadCanvas, LoadResult.ok.injEq] at h
      rw [← h, List.length_replicate]
    | statError => exact absurd h (by simp [loadCanvas])
    | present bs =>
      rcases eq_or_ne bs.length e with hbe | hbe
      · have heq : loadCanvas (.present bs) e d = .ok bs := by
          simp [loadCanvas, hbe]
        rw [heq] at h
        injection h with h2
        rw [← h2]
        exact hbe
      · have heq : loadCanvas (.present bs) e d = .fatal := by
          simp [loadCanvas, hbe]
        rw [heq] at h
        exact absurd h (by simp)
  · intro width height s0 s hr h0
    induction hr with
    | refl => exact h0
    | step x y c t hr hplace ih =>
      rcases (place_ok_iff _ _ _ _ _ _ _ _).1 hplace with
        ⟨-, -, -, -, -, -, hs⟩
      subst hs
      simpa using ih
  · intro width height s s2 x y c t h
    rcases (place_ok_iff _ _ _ _ _ _ _ _).1 h with
      ⟨-, -, hx0, hx1, hy0, hy1, hs⟩
    subst hs
    exact ⟨rfl, by simp,
      index_lt_of_in_bounds width height x y hx0 hx1 hy0 hy1⟩

/-- Witness for C9: the three parts applied at concrete inputs — a
2-byte file load, the bootstrap of a 2×2 board, and one successful
placement at (1,1) on it. -/
theorem c9_witness :
    ([7, 7] : List Nat).length = 2 ∧
    (bootState 2 2 0).board.length = ((2 : Int) * 2).toNat ∧
    ({ board := [0, 0, 0, 5], placementData := [⟨1, 1, 5, 9⟩] } :
        State).board.length = (bootState 2 2 0).board.length ∧
    ((1 : Int) * 2 + 1).toNat < ((2 : Int) * 2).toNat := by
  refine ⟨c9_grid_length_invariant.1 (.present [7, 7]) 2 0 [7, 7] (by decide),
    c9_grid_length_invariant.2.1 2 2 (bootState 2 2 0) _
      (ReachableFrom.refl _) (by decide),
    ?_, ?_⟩
  · exact (c9_grid_length_invariant.2.2 2 2 (bootState 2 2 0) _ 1 1 5 9
      (by decide)).2.1
  · exact (c9_grid_length_invariant.2.2 2 2 (bootState 2 2 0)
      { board := [0, 0, 0, 5], placementData := [⟨1, 1, 5, 9⟩] } 1 1 5 9
      (by decide)).2.2

/-- Claim C8: loading an existing board file whose length differs from
the expected size is fatal; loading one whose length matches returns
exactly the file's bytes. -/
theorem c8_load_existing_board (bs : List Nat) (e : Nat) (d : Int) :
    (bs.length ≠ e → loadCanvas (.present bs) e d = .fatal) ∧
    (bs.length = e → loadCanvas (.present bs) e d = .ok bs) := by
  constructor
  · intro h
    simp [loadCanvas, h]
  · intro h
    simp [loadCanvas, h]

/-- Witness for C8: a 2-byte file is fatal against expected size 3 and
loads byte-identically against expected size 2. -/
theorem c8_witness :
    (([1, 2] : List Nat).length ≠ 3 ∧
      loadCanvas (.present [1, 2]) 3 0 = .fatal) ∧
    (([1, 2] : List Nat).length = 2 ∧
      loadCanvas (.present [1, 2]) 2 0 = .ok [1, 2]) :=
  ⟨⟨by decide, (c8_load_existing_board [1, 2] 3 0).1 (by decide)⟩,
   ⟨rfl, (c8_load_existing_board [1, 2] 2 0).2 rfl⟩⟩

/-- The state after placing colors 1, 2, 3 at (5,5) on a fresh 6×6
board, with deliberately decreasing timestamps. -/
def c1Chain : State :=
  (place 6 6 ((place 6 6 ((place 6 6 (bootState 6 6 0)
    5 5 1 300).1) 5 5 2 200).1) 5 5 3 100).1

/-- Claim C1 (code bug): after successfully placing colors 1, 2, 3 at
(5,5) in that order, the GET /pixel lookup returns the FIRST matching
log entry — color 1 — not the last-appended color 3 that the spec's
last-write-wins contract requires (`slices.IndexFunc` scans from the
front). -/
theorem c1_find_latest_returns_first_match :
    (place 6 6 (bootState 6 6 0) 5 5 1 300).2 = none ∧
    (place 6 6 ((place 6 6 (bootState 6 6 0) 5 5 1 300).1)
      5 5 2 200).2 = none ∧
    (place 6 6 ((place 6 6 ((place 6 6 (bootState 6 6 0)
      5 5 1 300).1) 5 5 2 200).1) 5 5 3 100).2 = none ∧
    Option.map ServerPixel.color (findLatest c1Chain 5 5) = some 1 ∧
    ¬ Option.map ServerPixel.color (findLatest c1Chain 5 5) = some 3 := by
  decide

/-- The state after placing color 1 and then color 2 at (0,0) on a
fresh 3×3 board. -/
def c2Chain : State :=
  (place 3 3 ((place 3 3 (bootState 3 3 0) 0 0 1 10).1) 0 0 2 20).1

/-- Claim C2 (code bug): a successful `place` does write the grid cell
at `y*width + x` and append exactly one placement, and `readCell` then
returns the new color — but after a second placement at the same
coordinate, `findLatest` still returns the FIRST log entry (color 1),
not a placement carrying the just-placed color 2, because the lookup
scans from the front of the log. -/
theorem c2_place_then_lookup :
    (place 3 3 (bootState 3 3 0) 0 0 1 10).2 = none ∧
    (place 3 3 ((place 3 3 (bootState 3 3 0) 0 0 1 10).1)
      0 0 2 20).2 = none ∧
    c2Chain.board =
      ((place 3 3 (bootState 3 3 0) 0 0 1 10).1).board.set 0 (byteOfInt 2) ∧
    c2Chain.placementData =
      ((place 3 3 (bootState 3 3 0) 0 0 1 10).1).placementData ++
        [{ x := 0, y := 0, color := 2, time := 20 }] ∧
    readCell 3 3 c2Chain 0 0 = some 2 ∧
    Option.map ServerPixel.color (findLatest c2Chain 0 0) = some 1 ∧
    ¬ Option.map ServerPixel.color (findLatest c2Chain 0 0) = some 2 := by
  decide

/-- Claim C3 counterexample: with a two-entry palette, colorIndex 5 is
outside [0, paletteSize) yet the in-bounds placement at (0,0) is
accepted — the handler compares the color against 255, never against
the palette size, so it does not fail with InvalidColor. -/
theorem c3_counterexample :
    (["000000", "FFFFFF"] : List String).length = 2 ∧
    (place 3 3 (bootState 3 3 0) 0 0 5 7).2 = none ∧
    ¬ (place 3 3 (bootState 3 3 0) 0 0 5 7).2 =
        some PlaceError.invalidColor := by
  refine ⟨rfl, by decide, by decide⟩

/-- Claim C3 (amended): `place` fails with the color error exactly when
the colorIndex is outside [0, 255] — the configured palette size plays
no part in the check — and on that failure the state is unchanged. -/
theorem c3_amended_color_range (width height : Int) (s : State)
    (x y c t : Int) :
    ((place width height s x y c t).2 = some PlaceError.invalidColor ↔
      c < 0 ∨ c > 255) ∧
    (c < 0 ∨ c > 255 → (place width height s x y c t).1 = s) := by
  unfold place
  split_ifs with h1 h2 h3 <;>
    simp_all

/-- Witness for C3 (amended): colorIndex 300 is rejected with the color
error and leaves the bootstrap state untouched. -/
theorem c3_witness :
    (place 3 3 (bootState 3 3 0) 0 0 300 7).2 =
        some PlaceError.invalidColor ∧
    (place 3 3 (bootState 3 3 0) 0 0 300 7).1 = bootState 3 3 0 :=
  ⟨(c3_amended_color_range 3 3 (bootState 3 3 0) 0 0 300 7).1.mpr
      (Or.inr (by decide)),
   (c3_amended_color_range 3 3 (bootState 3 3 0) 0 0 300 7).2
      (Or.inr (by decide))⟩

/-- Claim C5 counterexample: a failed `os.WriteFile` inside either save
routine reaches `log.Fatalln`, which terminates the process — the save
failure is not survived, so there is no next tick to retry on. -/
theorem c5_counterexample :
    saveCanvas WriteResult.failure = SaveOutcome.fatal ∧
    savePlacementData (some []) WriteResult.failure = SaveOutcome.fatal ∧
    ¬ SaveOutcome.fatal = SaveOutcome.ok := by
  refine ⟨rfl, rfl, by decide⟩

/-- Claim C5 (amended): a write failure in `saveCanvas` or
`savePlacementData` is precisely what makes the routine fatal (the
process logs the error and exits, so the flush is never retried); a
successful write leaves the process running.  The in-memory state is
not touched by either routine — they only read it. -/
theorem c5_amended_save_failure_fatal :
    (∀ w : WriteResult,
      saveCanvas w = SaveOutcome.fatal ↔ w = WriteResult.failure) ∧
    (∀ (m : List Nat) (w : WriteResult),
      savePlacementData (some m) w = SaveOutcome.fatal ↔
        w = WriteResult.failure) := by
  constructor
  · intro w
    cases w <;> simp [saveCanvas]
  · intro m w
    cases w <;> simp [savePlacementData]

/-- Witness for C5 (amended): the failure direction at concrete inputs. -/
theorem c5_witness :
    saveCanvas WriteResult.failure = SaveOutcome.fatal ∧
    savePlacementData (some [1]) WriteResult.failure = SaveOutcome.fatal :=
  ⟨(c5_amended_save_failure_fatal.1 WriteResult.failure).mpr rfl,
   (c5_amended_save_failure_fatal.2 [1] WriteResult.failure).mpr rfl⟩

/-- Claim C6 counterexample: at the out-of-bounds coordinate (-1, 0)
with colorIndex 300, `place` fails with the color error, not an
out-of-bounds error, because the handler validates the color first. -/
theorem c6_counterexample :
    (place 3 3 (bootState 3 3 0) (-1) 0 300 0).2 =
        some PlaceError.invalidColor ∧
    PlaceError.invalidColor.isOutOfBounds = false := by
  decide

/-- Claim C6 (amended): for every coordinate outside
[0,width)×[0,height), `readCell` fails, and `place` fails leaving the
state unchanged; the failure is an out-of-bounds error whenever the
colorIndex is within [0, 255] (an out-of-range color is reported as the
color error instead, since color is validated first). -/
theorem c6_amended_out_of_bounds (width height : Int) (s : State)
    (x y c t : Int)
    (hob : x < 0 ∨ x ≥ width ∨ y < 0 ∨ y ≥ height) :
    readCell width height s x y = none ∧
    (place width height s x y c t).1 = s ∧
    ¬ (place width height s x y c t).2 = none ∧
    (0 ≤ c → c ≤ 255 →
      ∃ e : PlaceError, (place width height s x y c t).2 = some e ∧
        e.isOutOfBounds = true) := by
  refine ⟨by simp [readCell, hob], ?_, ?_, ?_⟩
  · unfold place
    split_ifs with h1 h2 h3
    · rfl
    · rfl
    · rfl
    · push_neg at h2 h3
      rcases hob with h | h | h | h <;> omega
  · unfold place
    split_ifs with h1 h2 h3
    · simp
    · simp
    · simp
    · push_neg at h2 h3
      rcases hob with h | h | h | h <;> omega
  · intro hc0 hc1
    unfold place
    split_ifs with h1 h2 h3
    · omega
    · exact ⟨.outOfBoundsX, rfl, rfl⟩
    · exact ⟨.outOfBoundsY, rfl, rfl⟩
    · push_neg at h2 h3
      rcases hob with h | h | h | h <;> omega

/-- Witness for C6 (amended): the out-of-bounds coordinate (-2, 0) on a
3×3 board with the valid colorIndex 1. -/
theorem c6_witness :
    ((-2 : Int) < 0 ∨ (-2 : Int) ≥ 3 ∨ (0 : Int) < 0 ∨ (0 : Int) ≥ 3) ∧
    readCell 3 3 (bootState 3 3 0) (-2) 0 = none ∧
    (place 3 3 (bootState 3 3 0) (-2) 0 1 0).1 = bootState 3 3 0 ∧
    ¬ (place 3 3 (bootState 3 3 0) (-2) 0 1 0).2 = none ∧
    (∃ e : PlaceError, (place 3 3 (bootState 3 3 0) (-2) 0 1 0).2 = some e ∧
      e.isOutOfBounds = true) := by
  have hob : (-2 : Int) < 0 ∨ (-2 : Int) ≥ 3 ∨ (0 : Int) < 0 ∨
      (0 : Int) ≥ 3 := Or.inl (by decide)
  have h := c6_amended_out_of_bounds 3 3 (bootState 3 3 0) (-2) 0 1 0 hob
  exact ⟨hob, h.1, h.2.1, h.2.2.1, h.2.2.2 (by decide) (by decide)⟩

/-- Claim C7 counterexample: with defaultColorIndex 300, the bootstrap
buffer holds the truncated byte 44 = 300 mod 256 in every cell, so its
cells do not equal the supplied defaultColorIndex. -/
theorem c7_counterexample :
    loadCanvas FileState.absent 1 300 = LoadResult.ok [44] ∧
    ¬ ∀ b ∈ ([44] : List Nat), (b : Int) = 300 := by
  refine ⟨by decide, by decide⟩

/-- Claim C7 (amended): `loadCanvas` on a missing file returns a buffer
of `expectedSize` copies of `byte(defaultColorIndex)` — equal to
defaultColorIndex itself whenever that index is in [0, 256) — and
`loadPlacementData` on a missing file returns the empty log. -/
theorem c7_amended_bootstrap (e : Nat) (d : Int) :
    loadCanvas .absent e d = .ok (List.replicate e (byteOfInt d)) ∧
    (0 ≤ d → d < 256 →
      ∀ b ∈ List.replicate e (byteOfInt d), (b : Int) = d) ∧
    loadPlacementData .absent = .ok [] := by
  refine ⟨rfl, ?_, rfl⟩
  intro h0 h1 b hb
  have hbe : b = byteOfInt d := List.eq_of_mem_replicate hb
  subst hbe
  unfold byteOfInt
  omega

/-- Witness for C7 (amended): expectedSize 2, defaultColorIndex 3. -/
theorem c7_witness :
    loadCanvas .absent 2 3 = .ok [3, 3] ∧
    ((0 : Int) ≤ 3 ∧ (3 : Int) < 256) ∧
    (∀ b ∈ ([3, 3] : List Nat), (b : Int) = 3) ∧
    loadPlacementData .absent = .ok [] := by
  have h := c7_amended_bootstrap 2 3
  exact ⟨h.1, ⟨by decide, by decide⟩,
    h.2.1 (by decide) (by decide), h.2.2⟩

end PxG
